import Mathlib

/-!
Verification of the `regulator-cli` deployment and Etherscan-verification
pipeline.  The Rust sources (`src/eth.rs`, `src/etherscan.rs` and the command
workflows) are shallowly embedded below: file system, chain RPC and HTTP
endpoints become explicit oracles, machine integers become `Nat` with explicit
`% 2^w` masking, and fallible code returns `Except`/`Option`.
-/

/-! ## Hex encoding / decoding (`alloy::hex`) -/

/-- Lowercase hex digit for a nibble (values ≥ 16 cannot arise from byte input). -/
def hexDigit (n : Nat) : Char :=
  match n with
  | 0 => '0' | 1 => '1' | 2 => '2' | 3 => '3' | 4 => '4'
  | 5 => '5' | 6 => '6' | 7 => '7' | 8 => '8' | 9 => '9'
  | 10 => 'a' | 11 => 'b' | 12 => 'c' | 13 => 'd' | 14 => 'e' | 15 => 'f'
  | _ => '0'

/-- The two lowercase hex characters of one byte (`hex::encode` per byte). -/
def byteHexChars (b : Nat) : List Char :=
  [hexDigit (b / 16 % 16), hexDigit (b % 16)]

/-- All hex characters of a byte string, in order. -/
def hexChars (bs : List Nat) : List Char :=
  bs.flatMap byteHexChars

/-- `hex::encode`: lowercase hex string of a byte string, no `0x` mark. -/
def hexEncodeStr (bs : List Nat) : String :=
  String.mk (hexChars bs)

/-- Numeric value of a hex character (`hex::decode` accepts both cases). -/
def hexVal (c : Char) : Option Nat :=
  if 48 ≤ c.toNat ∧ c.toNat ≤ 57 then some (c.toNat - 48)
  else if 97 ≤ c.toNat ∧ c.toNat ≤ 102 then some (c.toNat - 87)
  else if 65 ≤ c.toNat ∧ c.toNat ≤ 70 then some (c.toNat - 55)
  else none

/-- `hex::decode` on a character list: pairs of hex digits, else failure. -/
def hexDecodeAux : List Char → Option (List Nat)
  | [] => some []
  | [_] => none
  | c1 :: c2 :: rest =>
    match hexVal c1, hexVal c2, hexDecodeAux rest with
    | some h, some l, some bs => some ((16 * h + l) :: bs)
    | _, _, _ => none

/-- `hex::decode` on a string. -/
def hexDecode (s : String) : Option (List Nat) :=
  hexDecodeAux s.data

/-- `bytecode_hex.strip_prefix("0x").unwrap_or(&bytecode_hex)`. -/
def strip0x (s : String) : String :=
  match s.data with
  | '0' :: 'x' :: rest => String.mk rest
  | _ => s

/-- Whether the first list is an initial segment of the second. -/
def leadsList (pat s : List Char) : Bool :=
  s.take pat.length == pat

/-- One-character-at-a-time engine for `str::replace`: replace each leftmost,
non-overlapping occurrence of `pat` by `rep`.  The fuel argument (any value at
least the list length) only makes the recursion structural; `pat` is never
empty at the call sites (placeholders have 40 characters). -/
def replaceCharsAux (pat rep : List Char) : Nat → List Char → List Char
  | _, [] => []
  | 0, s => s
  | fuel + 1, c :: rest =>
    if pat ≠ [] ∧ leadsList pat (c :: rest) then
      rep ++ replaceCharsAux pat rep fuel ((c :: rest).drop pat.length)
    else c :: replaceCharsAux pat rep fuel rest

/-- `str::replace(pat, rep)`: every non-overlapping occurrence, left to right. -/
def replaceAll (s pat rep : String) : String :=
  String.mk (replaceCharsAux pat.data rep.data s.data.length s.data)

/-! ## UTF-8 bytes of a string (`str::as_bytes`) -/

/-- UTF-8 encoding of one character. -/
def utf8Bytes (c : Char) : List Nat :=
  let n := c.toNat
  if n < 0x80 then [n]
  else if n < 0x800 then [0xC0 ||| (n >>> 6), 0x80 ||| (n &&& 0x3F)]
  else if n < 0x10000 then
    [0xE0 ||| (n >>> 12), 0x80 ||| ((n >>> 6) &&& 0x3F), 0x80 ||| (n &&& 0x3F)]
  else
    [0xF0 ||| (n >>> 18), 0x80 ||| ((n >>> 12) &&& 0x3F),
     0x80 ||| ((n >>> 6) &&& 0x3F), 0x80 ||| (n &&& 0x3F)]

/-- UTF-8 bytes of a string. -/
def strBytes (s : String) : List Nat :=
  s.data.flatMap utf8Bytes

/-! ## Keccak-256 (`alloy::primitives::keccak256`)

Lanes are 64-bit words represented as `Nat` with explicit `% 2^64` masking;
the state is a flat list of 25 lanes indexed by `x + 5*y`. -/

/-- Rotate a 64-bit word left by `n` bits. -/
def rotl64 (x n : Nat) : Nat :=
  ((x <<< n) ||| (x >>> (64 - n))) % (2 ^ 64)

/-- Keccak-f[1600] round constants. -/
def keccakRC : List Nat :=
  [0x0000000000000001, 0x0000000000008082, 0x800000000000808a, 0x8000000080008000,
   0x000000000000808b, 0x0000000080000001, 0x8000000080008081, 0x8000000000008009,
   0x000000000000008a, 0x0000000000000088, 0x0000000080008009, 0x000000008000000a,
   0x000000008000808b, 0x800000000000008b, 0x8000000000008089, 0x8000000000008003,
   0x8000000000008002, 0x8000000000000080, 0x000000000000800a, 0x800000008000000a,
   0x8000000080008081, 0x8000000000008080, 0x0000000080000001, 0x8000000080008008]

/-- One step of the standard rho walk: record the offset
`(t+1)(t+2)/2 mod 64` for the current lane, then move `(x, y) ↦ (y, 2x+3y)`. -/
def rhoStep (acc : (Nat × Nat) × List (Nat × Nat)) (t : Nat) :
    (Nat × Nat) × List (Nat × Nat) :=
  let x := acc.1.1
  let y := acc.1.2
  ((y, (2 * x + 3 * y) % 5), (x + 5 * y, (t + 1) * (t + 2) / 2 % 64) :: acc.2)

/-- Flat-lane-index/offset pairs produced by the rho walk from `(1, 0)`. -/
def rhoTable : List (Nat × Nat) :=
  ((List.range 24).foldl rhoStep ((1, 0), [])).2

/-- Rho rotation offsets, indexed by `x + 5*y` (lane `(0,0)` rotates by 0). -/
def rhoOffsets : List Nat :=
  (List.range 25).map fun i => ((rhoTable.find? (fun p => p.1 == i)).map Prod.snd).getD 0

/-- Theta step. -/
def thetaStep (A : List Nat) : List Nat :=
  let C := (List.range 5).map fun x =>
    A.getD x 0 ^^^ A.getD (x + 5) 0 ^^^ A.getD (x + 10) 0 ^^^
      A.getD (x + 15) 0 ^^^ A.getD (x + 20) 0
  let D := (List.range 5).map fun x =>
    C.getD ((x + 4) % 5) 0 ^^^ rotl64 (C.getD ((x + 1) % 5) 0) 1
  (List.range 25).map fun i => A.getD i 0 ^^^ D.getD (i % 5) 0

/-- Combined rho and pi steps: `B[y][(2x+3y) mod 5] = rotl(A[x][y], r[x][y])`. -/
def rhoPiStep (A : List Nat) : List Nat :=
  (List.range 25).foldl
    (fun B i =>
      let x := i % 5
      let y := i / 5
      let j := y + 5 * ((2 * x + 3 * y) % 5)
      B.set j (rotl64 (A.getD i 0) (rhoOffsets.getD i 0)))
    (List.replicate 25 0)

/-- Chi step (`not` realised as xor with the 64-bit mask). -/
def chiStep (B : List Nat) : List Nat :=
  (List.range 25).map fun i =>
    let x := i % 5
    let y := i / 5
    B.getD i 0 ^^^
      ((B.getD ((x + 1) % 5 + 5 * y) 0 ^^^ 0xFFFFFFFFFFFFFFFF) &&&
        B.getD ((x + 2) % 5 + 5 * y) 0)

/-- Iota step. -/
def iotaStep (A : List Nat) (rc : Nat) : List Nat :=
  match A with
  | [] => []
  | a0 :: rest => (a0 ^^^ rc) :: rest

/-- One Keccak-f round. -/
def keccakRound (A : List Nat) (rc : Nat) : List Nat :=
  iotaStep (chiStep (rhoPiStep (thetaStep A))) rc

/-- The 24-round Keccak-f[1600] permutation. -/
def keccakF (A : List Nat) : List Nat :=
  keccakRC.foldl keccakRound A

/-- Little-endian 64-bit lane from up to 8 bytes. -/
def bytesToLane (bs : List Nat) : Nat :=
  bs.foldr (fun b acc => acc * 256 + b) 0

/-- The 8 little-endian bytes of a 64-bit lane. -/
def laneBytes (w : Nat) : List Nat :=
  [w % 256, w / 2 ^ 8 % 256, w / 2 ^ 16 % 256, w / 2 ^ 24 % 256,
   w / 2 ^ 32 % 256, w / 2 ^ 40 % 256, w / 2 ^ 48 % 256, w / 2 ^ 56 % 256]

/-- Absorb one 136-byte block into the state. -/
def absorbBlock (st : List Nat) (block : List Nat) : List Nat :=
  keccakF ((List.range 25).map fun i =>
    if i < 17 then st.getD i 0 ^^^ bytesToLane ((block.drop (8 * i)).take 8)
    else st.getD i 0)

/-- Absorb a padded message, 136 bytes at a time.  The first argument is
structural-recursion fuel; any value at least the byte count is enough, since
each step consumes 136 bytes. -/
def absorbChunks (st : List Nat) : Nat → List Nat → List Nat
  | _, [] => st
  | 0, _ :: _ => st
  | n + 1, b :: rest =>
    absorbChunks (absorbBlock st ((b :: rest).take 136)) n ((b :: rest).drop 136)

/-- Keccak pad10*1 with domain byte `0x01` (legacy Keccak, as used by Ethereum). -/
def keccakPadding (len : Nat) : List Nat :=
  let r := 136 - len % 136
  if r = 1 then [0x81] else 0x01 :: (List.replicate (r - 2) 0 ++ [0x80])

/-- Keccak-256 of a byte string: 32 bytes. -/
def keccak256 (msg : List Nat) : List Nat :=
  let padded := msg ++ keccakPadding msg.length
  let st := absorbChunks (List.replicate 25 0) padded.length padded
  laneBytes (st.getD 0 0) ++ laneBytes (st.getD 1 0) ++
    laneBytes (st.getD 2 0) ++ laneBytes (st.getD 3 0)

/-! ## `library_placeholder` (`src/eth.rs`) -/

/-- Compute the `__$<hash>$__` placeholder Solidity uses for an unlinked
library: keccak256 of the fully-qualified name, hex-encoded, first 34 hex
characters between the delimiters. -/
def library_placeholder (fully_qualified_name : String) : String :=
  "__$" ++ String.mk ((hexChars (keccak256 (strBytes fully_qualified_name))).take 34) ++ "$__"

/-! ## JSON values (`serde_json::Value`)

Objects are association lists in stored order; lookups are key-based, matching
the observable behaviour of `serde_json::Map`. -/

inductive Json where
  | null
  | bool (b : Bool)
  | num (n : Int)
  | str (s : String)
  | arr (xs : List Json)
  | obj (fields : List (String × Json))

/-- Key lookup in an object's field list (first match). -/
def lookupField : List (String × Json) → String → Option Json
  | [], _ => none
  | (k', v) :: rest, k => if k' = k then some v else lookupField rest k

/-- `Value::get` on an object, `None` otherwise. -/
def Json.get? : Json → String → Option Json
  | .obj fs, k => lookupField fs k
  | _, _ => none

/-- `Value::as_str`. -/
def Json.asStr : Json → Option String
  | .str s => some s
  | _ => none

/-- `Value::as_object`. -/
def Json.asObj : Json → Option (List (String × Json))
  | .obj fs => some fs
  | _ => none

/-! ## Path manipulation (`std::path::Path`) -/

/-- Split a character list on a separator (semantics of `String.splitOn` with
a one-character separator). -/
def splitOnChar (sep : Char) : List Char → List (List Char)
  | [] => [[]]
  | c :: rest =>
    if c = sep then [] :: splitOnChar sep rest
    else
      match splitOnChar sep rest with
      | [] => [[c]]
      | g :: gs => (c :: g) :: gs

/-- The `/`-separated components of a path string. -/
def pathComponents (p : String) : List String :=
  (splitOnChar '/' p.data).map String.mk

/-- Join strings with `/` between them. -/
def joinWithSlash : List String → String
  | [] => ""
  | [s] => s
  | s :: rest => s ++ "/" ++ joinWithSlash rest

/-- `Path::file_name`: final non-empty, non-`.` component; `None` for `..`. -/
def fileName (p : String) : Option String :=
  match ((pathComponents p).filter (fun s => s != "" && s != ".")).getLast? with
  | none => none
  | some l => if l = ".." then none else some l

/-- `Path::new(sol_file).file_name().unwrap_or(sol_file.as_ref())`. -/
def fileNameOr (p : String) : String :=
  (fileName p).getD p

/-- `Path::parent`: the path without its final component. -/
def parentPath (p : String) : Option String :=
  if p = "" then none
  else if p = "/" then none
  else some (joinWithSlash (pathComponents p).dropLast)

/-- `Path::join` for relative components. -/
def joinPath (a b : String) : String :=
  if a = "" then b
  else if b.data.head? = some '/' then b
  else if a.data.getLast? = some '/' then a ++ b
  else a ++ "/" ++ b

/-- The library artifact lookup path used by `deploy_from_artifact`:
`<outputDir>/<fileName(sourceFile)>/<libraryName>.json`. -/
def libArtifactPath (dir solFile libName : String) : String :=
  joinPath (joinPath dir (fileNameOr solFile)) (libName ++ ".json")

/-! ## Deployment model (`src/eth.rs`)

The chain RPC is an oracle keyed by the number of transactions already sent;
the `ChainState` additionally logs every submitted code payload so theorems can
observe what was deployed and in what order.  Addresses are 20-byte strings
(`List Nat`). -/

/-- The node's response to one `send_transaction` + `get_receipt` round trip. -/
inductive DeployResp where
  | sendErr (e : String)
  | receiptErr (e : String)
  | receipt (txHash : String) (contractAddress : Option (List Nat))

/-- `DeployOutput` from `src/eth.rs`. -/
structure DeployOutput where
  deployed_to : List Nat
  transaction_hash : String

/-- Number of transactions sent so far, and the submitted code payloads. -/
structure ChainState where
  count : Nat
  sent : List (List Nat)

/-- External collaborators of `deploy_from_artifact`: the artifact file system
(read + JSON parse combined; `none` is a read failure) and the chain RPC. -/
structure Env where
  fs : String → Option Json
  deployTx : Nat → DeployResp

/-- Broadcast a deployment transaction and wait for its receipt. -/
def sendDeploy (env : Env) (code : List Nat) (st : ChainState) :
    Except String DeployOutput × ChainState :=
  let st' : ChainState := ⟨st.count + 1, st.sent ++ [code]⟩
  match env.deployTx st.count with
  | .sendErr e => (.error ("failed to broadcast contract deployment: " ++ e), st')
  | .receiptErr e => (.error ("contract deployment transaction failed: " ++ e), st')
  | .receipt _ none => (.error "no contract address in deployment receipt", st')
  | .receipt txh (some addr) => (.ok ⟨addr, txh⟩, st')

/-- Strip the optional `0x` mark, hex-decode, append constructor args, deploy. -/
def finishDeploy (env : Env) (path : String) (bytecodeHex : String)
    (ctorArgs : Option (List Nat)) (st : ChainState) :
    Except String DeployOutput × ChainState :=
  match hexDecode (strip0x bytecodeHex) with
  | none => (.error ("invalid hex in bytecode.object of artifact: " ++ path), st)
  | some code => sendDeploy env (code ++ ctorArgs.getD []) st

/-- Inner loop of the linking step: deploy each library of one source file and
substitute its address for the placeholder in the pending bytecode string. -/
def linkOne (deployLib : String → ChainState → Except String DeployOutput × ChainState)
    (dir solFile : String) :
    List String → String → ChainState → Except String String × ChainState
  | [], bc, st => (.ok bc, st)
  | libName :: rest, bc, st =>
    match deployLib (libArtifactPath dir solFile libName) st with
    | (.error e, st') => (.error e, st')
    | (.ok out, st') =>
      linkOne deployLib dir solFile rest
        (replaceAll bc (library_placeholder (solFile ++ ":" ++ libName))
          (hexEncodeStr out.deployed_to)) st'

/-- Outer loop of the linking step over `linkReferences` entries. -/
def linkLibs (deployLib : String → ChainState → Except String DeployOutput × ChainState)
    (dir : String) :
    List (String × Json) → String → ChainState → Except String String × ChainState
  | [], bc, st => (.ok bc, st)
  | (solFile, libsJson) :: rest, bc, st =>
    match libsJson.asObj with
    | none => linkLibs deployLib dir rest bc st
    | some libs =>
      match linkOne deployLib dir solFile (libs.map Prod.fst) bc st with
      | (.error e, st') => (.error e, st')
      | (.ok bc', st') => linkLibs deployLib dir rest bc' st'

/-- The `if let Some(link_refs) = artifact.pointer("/bytecode/linkReferences")`
block of `deploy_from_artifact`. -/
def linkStage (deployLib : String → ChainState → Except String DeployOutput × ChainState)
    (path : String) (artifact : Json) (bc : String) (st : ChainState) :
    Except String String × ChainState :=
  match (artifact.get? "bytecode").bind (fun b => b.get? "linkReferences") with
  | none => (.ok bc, st)
  | some lr =>
    match lr.asObj with
    | none => (.ok bc, st)
    | some entries =>
      match (parentPath path).bind parentPath with
      | none => (.error "cannot determine artifact output directory", st)
      | some dir => linkLibs deployLib dir entries bc st

/-- `deploy_from_artifact` from `src/eth.rs`.  The Rust function recurses
without bound; the embedding makes the recursion depth explicit with fuel, and
exhausting the fuel is reported as a distinguished error. -/
def deploy_from_artifact (env : Env) :
    Nat → String → Option (List Nat) → ChainState →
      Except String DeployOutput × ChainState
  | 0, _, _, st => (.error "recursion fuel exhausted", st)
  | fuel + 1, path, ctorArgs, st =>
    match env.fs path with
    | none => (.error ("failed to read artifact: " ++ path), st)
    | some artifact =>
      match ((artifact.get? "bytecode").bind (fun b => b.get? "object")).bind Json.asStr with
      | none => (.error ("missing bytecode.object in artifact: " ++ path), st)
      | some bc0 =>
        match linkStage (fun p stx => deploy_from_artifact env fuel p none stx)
            path artifact bc0 st with
        | (.error e, st1) => (.error e, st1)
        | (.ok bc1, st1) => finishDeploy env path bc1 ctorArgs st1

/-! ## Etherscan verification model (`src/etherscan.rs`)

HTTP endpoints become oracles indexed by attempt number.  A submit-endpoint
response is either a transport/parse error or a parsed
`EtherscanResponse { status, result }` pair. -/

def ETHERSCAN_V2_API : String := "https://api.etherscan.io/v2/api"
def POLL_INTERVAL_SECS : Nat := 5
def MAX_POLL_ATTEMPTS : Nat := 20
def SUBMIT_RETRIES : Nat := 3
def SUBMIT_RETRY_DELAY_SECS : Nat := 10

/-- `VerificationOutcome` from `src/etherscan.rs`. -/
inductive VerificationOutcome where
  | Verified
  | AlreadyVerified
  | Failed (reason : String)
  | Skipped
deriving DecidableEq

/-- `submit_verification`: check the response's status flag; the result string
is the job identifier on success, the error message otherwise. -/
def submit_verification (resp : Except String (String × String)) : Except String String :=
  match resp with
  | .error e => .error ("failed to send verification request to Etherscan: " ++ e)
  | .ok (status, result) =>
    if status = "1" then .ok result
    else .error ("Etherscan verification submission failed: " ++ result)

/-- The submission retry loop of `verify_contract`: `remaining` attempts left
(the current one included), `attempt` the 1-based attempt number.  Returns the
guid on success, or the terminal `Failed` outcome after the last attempt. -/
def submitLoopAux (submit : Nat → Except String String) :
    Nat → Nat → VerificationOutcome ⊕ String
  | 0, _ => .inl (.Failed "guid set if loop did not return")
  | remaining + 1, attempt =>
    match submit attempt with
    | .ok g => .inr g
    | .error e =>
      if remaining = 0 then .inl (.Failed e)
      else submitLoopAux submit remaining (attempt + 1)

/-- The `for attempt in 1..=SUBMIT_RETRIES` submission loop. -/
def submit_loop (submit : Nat → Except String String) : VerificationOutcome ⊕ String :=
  submitLoopAux submit SUBMIT_RETRIES 1

/-- The polling loop of `poll_status`: `remaining` polls left, `attempt` the
1-based attempt number. -/
def pollLoop (resp : Nat → Except String String) :
    Nat → Nat → Except String VerificationOutcome
  | 0, _ =>
    .ok (.Failed ("timed out after " ++ Nat.repr MAX_POLL_ATTEMPTS ++ " attempts"))
  | remaining + 1, attempt =>
    match resp attempt with
    | .error e => .error e
    | .ok s =>
      if s = "Pass - Verified" then .ok .Verified
      else if s = "Already Verified" then .ok .AlreadyVerified
      else if s = "Pending in queue" then pollLoop resp remaining (attempt + 1)
      else .ok (.Failed s)

/-- `poll_status` from `src/etherscan.rs`: up to `MAX_POLL_ATTEMPTS` polls. -/
def poll_status (resp : Nat → Except String String) : Except String VerificationOutcome :=
  pollLoop resp MAX_POLL_ATTEMPTS 1

/-- `VerifyArgs` from `src/etherscan.rs`. -/
structure VerifyArgs where
  etherscan_api_key : Option String
  verifier_url : Option String

/-- External collaborators of `verify_contract`: the standard-JSON-input build
step, the submit endpoint (per attempt) and the status endpoint (per poll). -/
structure VerifyEnv where
  verify : VerifyArgs
  buildResult : Except String (String × String)
  submitResp : Nat → Except String (String × String)
  poll : Nat → Except String String

/-- `str::is_empty`. -/
def strIsEmpty (s : String) : Bool :=
  match s.data with
  | [] => true
  | _ :: _ => false

/-- `verify.etherscan_api_key.as_deref().filter(|k| !k.is_empty())`. -/
def effective_api_key (k : Option String) : Option String :=
  match k with
  | none => none
  | some s => if strIsEmpty s then none else some s

/-- `verify.verifier_url.as_deref().filter(|u| !u.is_empty()).unwrap_or(ETHERSCAN_V2_API)`. -/
def effective_base_url (u : Option String) : String :=
  match u with
  | none => ETHERSCAN_V2_API
  | some s => if strIsEmpty s then ETHERSCAN_V2_API else s

/-- `verify_contract` from `src/etherscan.rs`. -/
def verify_contract (env : VerifyEnv) : Except String VerificationOutcome :=
  match effective_api_key env.verify.etherscan_api_key with
  | none => .ok .Skipped
  | some _ =>
    let _baseUrl := effective_base_url env.verify.verifier_url
    match env.buildResult with
    | .error e => .error ("failed to build standard JSON input for verification: " ++ e)
    | .ok _ =>
      match submit_loop (fun a => submit_verification (env.submitResp a)) with
      | .inl outcome => .ok outcome
      | .inr _guid => poll_status env.poll

/-! ## `build_standard_json_input` (`src/etherscan.rs`) -/

/-- External collaborators of `build_standard_json_input`: artifact files,
`serde_json::from_str` for embedded metadata strings, and source files. -/
structure BuildEnv where
  fsArtifact : String → Option Json
  parse : String → Option Json
  fsSource : String → Option String

/-- Metadata extraction: `rawMetadata` (a JSON string) first, then `metadata`
(string or object). -/
def extract_metadata (env : BuildEnv) (artifact : Json) (path : String) :
    Except String Json :=
  match artifact.get? "rawMetadata" with
  | some raw =>
    match raw.asStr with
    | none => .error "rawMetadata is not a string"
    | some s =>
      match env.parse s with
      | none => .error "failed to parse metadata JSON"
      | some m => .ok m
  | none =>
    match artifact.get? "metadata" with
    | some m =>
      match m.asStr with
      | some s =>
        match env.parse s with
        | none => .error "failed to parse metadata JSON"
        | some mm => .ok mm
      | none => .ok m
    | none => .error ("no metadata found in artifact " ++ path)

/-- `serde_json::Map::insert`: replace the value if the key exists, else add. -/
def mapInsert : List (String × Json) → String → Json → List (String × Json)
  | [], k, v => [(k, v)]
  | (k', v') :: rest, k, v =>
    if k' = k then (k, v) :: rest else (k', v') :: mapInsert rest k v

/-- `serde_json::Map::entry(k).or_insert(v)`: insert only if the key is absent. -/
def entryOrInsert (m : List (String × Json)) (k : String) (v : Json) :
    List (String × Json) :=
  match lookupField m k with
  | some _ => m
  | none => m ++ [(k, v)]

/-- The `outputSelection` value inserted by `build_standard_json_input`. -/
def defaultOutputSelection : Json :=
  Json.obj [("*", Json.obj [("*",
    Json.arr [Json.str "abi", Json.str "evm.bytecode", Json.str "evm.deployedBytecode"])])]

/-- The settings-copy loop of `build_standard_json_input`: every metadata
settings key except `compilationTarget` inserted into a fresh map. -/
def settingsBase (metaSettings : Json) : List (String × Json) :=
  match metaSettings.asObj with
  | some fs =>
    fs.foldl
      (fun acc kv =>
        if kv.fst = "compilationTarget" then acc else mapInsert acc kv.fst kv.snd)
      []
  | none => []

/-- The compiler-settings map produced by `build_standard_json_input`: the copy
loop followed by `entry("outputSelection").or_insert(default)`. -/
def buildSettings (metaSettings : Json) : List (String × Json) :=
  entryOrInsert (settingsBase metaSettings) "outputSelection" defaultOutputSelection

/-- Read every source file listed in the metadata, relative to the project
root; the first missing file is a hard error. -/
def readSources (env : BuildEnv) (projectDir : String) :
    List String → Except String (List (String × Json))
  | [] => .ok []
  | p :: rest =>
    match env.fsSource (joinPath projectDir p) with
    | none => .error ("failed to read source: " ++ joinPath projectDir p)
    | some content =>
      match readSources env projectDir rest with
      | .error e => .error e
      | .ok srcs => .ok ((p, Json.obj [("content", Json.str content)]) :: srcs)

/-- `build_standard_json_input` from `src/etherscan.rs`.  The produced standard
JSON input is returned as a document rather than a serialised string. -/
def build_standard_json_input (env : BuildEnv) (projectDir artifactPath : String) :
    Except String (Json × String) :=
  match env.fsArtifact artifactPath with
  | none => .error ("failed to read artifact: " ++ artifactPath)
  | some artifact =>
    match extract_metadata env artifact artifactPath with
    | .error e => .error e
    | .ok metadata =>
      match ((metadata.get? "compiler").bind (fun c => c.get? "version")).bind Json.asStr with
      | none => .error "no compiler.version in artifact metadata"
      | some version =>
        let compilerVersion :=
          match version.data with
          | 'v' :: _ => version
          | _ => "v" ++ version
        let metaSettings := (metadata.get? "settings").getD (Json.obj [])
        let settings := buildSettings metaSettings
        match (metadata.get? "sources").bind Json.asObj with
        | none => .error "no sources in artifact metadata"
        | some sourceEntries =>
          match readSources env projectDir (sourceEntries.map Prod.fst) with
          | .error e => .error e
          | .ok sources =>
            .ok (Json.obj [("language", Json.str "Solidity"),
                           ("sources", Json.obj sources),
                           ("settings", Json.obj settings)],
                 compilerVersion)


/-! ## Predicates and concrete fixtures used by the theorems and witnesses -/

/-- The sixteen lowercase hex characters. -/
def hexDigitChars : List Char :=
  "0123456789abcdef".data

/-- Whether a chain response is a receipt carrying a contract address. -/
def respHasAddr : DeployResp → Bool
  | .receipt _ (some _) => true
  | _ => false

/-- Whether an `Except` value is `ok`. -/
def exceptIsOk {α : Type} : Except String α → Bool
  | .ok _ => true
  | .error _ => false

/-- A minimal artifact with the given bytecode string and no link references. -/
def bcArt (bc : String) : Json :=
  Json.obj [("bytecode", Json.obj [("object", Json.str bc)])]

def addrA : List Nat := List.replicate 20 1
def addrB : List Nat := List.replicate 20 2

/-- Main artifact whose bytecode references library `src/Lib.sol:MathLib`. -/
def artMainLinked : Json :=
  Json.obj [("bytecode", Json.obj
    [("object", Json.str "0x6002"),
     ("linkReferences", Json.obj [("src/Lib.sol", Json.obj [("MathLib", Json.arr [])])])])]

/-- Environment with the main artifact and its library artifact present. -/
def envLink : Env :=
  { fs := fun p =>
      if p = "out/Main.sol/Main.json" then some artMainLinked
      else if p = "out/Lib.sol/MathLib.json" then some (bcArt "0x6001")
      else none,
    deployTx := fun k =>
      if k = 0 then .receipt "0xh1" (some addrA) else .receipt "0xh2" (some addrB) }

/-- A self-referential artifact: its `linkReferences` entry resolves to its own
artifact path (`out/A.sol/A.json`), a cyclic library graph. -/
def artCyc : Json :=
  Json.obj [("bytecode", Json.obj
    [("object", Json.str "0x00"),
     ("linkReferences", Json.obj [("src/A.sol", Json.obj [("A", Json.arr [])])])])]

/-- Environment holding only the cyclic artifact. -/
def envCyc : Env :=
  { fs := fun p => if p = "out/A.sol/A.json" then some artCyc else none,
    deployTx := fun _ => .receipt "0xh" (some addrA) }

/-- Environment whose receipts never carry a contract address. -/
def envNoAddr : Env :=
  { fs := fun _ => some (bcArt "0x6002"),
    deployTx := fun _ => .receipt "0xh" none }

/-- Environment with one artifact and a successful deployment. -/
def envOneShot : Env :=
  { fs := fun p => if p = "out/Main.sol/Main.json" then some (bcArt "0x6002") else none,
    deployTx := fun _ => .receipt "0xhash" (some addrA) }

/-- Environment where the referenced library artifact file is absent. -/
def envMissingLib : Env :=
  { fs := fun p => if p = "out/Main.sol/Main.json" then some artMainLinked else none,
    deployTx := fun _ => .receipt "0xh" (some addrA) }

/-- Verification environment whose standard-JSON-input build step fails. -/
def veBuildErr : VerifyEnv :=
  { verify := ⟨some "KEY", none⟩,
    buildResult := .error "boom",
    submitResp := fun _ => .ok ("1", "guid1"),
    poll := fun _ => .ok "Pass - Verified" }

/-- Verification environment whose submit endpoint always fails. -/
def veSubmitFail : VerifyEnv :=
  { verify := ⟨some "KEY", none⟩,
    buildResult := .ok ("{}", "v0.8.28"),
    submitResp := fun _ => .error "connection refused",
    poll := fun _ => .ok "Pass - Verified" }

/-- Verification environment whose status endpoint fails on the first poll. -/
def vePollErr : VerifyEnv :=
  { verify := ⟨some "KEY", none⟩,
    buildResult := .ok ("{}", "v0.8.28"),
    submitResp := fun _ => .ok ("1", "guid1"),
    poll := fun _ => .error "poll transport down" }

/-- Status sequence: two pending polls, then verified. -/
def respSeq3 : Nat → Except String String :=
  fun i => if i ≤ 2 then .ok "Pending in queue" else .ok "Pass - Verified"

/-- Status sequence: pending forever. -/
def respAllPending : Nat → Except String String :=
  fun _ => .ok "Pending in queue"

/-- Status sequence: an unrecognised status on the first poll. -/
def respOther : Nat → Except String String :=
  fun i => if i = 1 then .ok "Unable to verify" else .ok "Pending in queue"

/-- Status sequence: already verified on the first poll. -/
def respAlready : Nat → Except String String :=
  fun _ => .ok "Already Verified"

/-- Submission results: first attempt fails, second succeeds. -/
def subSecondOk : Nat → Except String String :=
  fun i => if i = 1 then .error "boom1" else .ok "guid-2"

/-- Submission results: every attempt fails with a distinct message. -/
def subAllErr : Nat → Except String String :=
  fun i => .error ("boom" ++ Nat.repr i)

/-- Artifact carrying embedded metadata (object form) for the build witness. -/
def artWithMeta : Json :=
  Json.obj [("metadata", Json.obj
    [("compiler", Json.obj [("version", Json.str "0.8.28+commit.7893614a")]),
     ("settings", Json.obj [("optimizer", Json.bool true)]),
     ("sources", Json.obj [])])]

/-- Build environment holding only `artWithMeta`. -/
def envBuildW : BuildEnv :=
  { fsArtifact := fun p => if p = "out/V.sol/V.json" then some artWithMeta else none,
    parse := fun _ => none,
    fsSource := fun _ => none }

/-! ## Helper lemmas and claim theorems -/

theorem pollLoop_pending_step (resp : Nat → Except String String) (r a : Nat)
    (h : resp a = .ok "Pending in queue") :
    pollLoop resp (r + 1) a = pollLoop resp r (a + 1) := by
  simp [pollLoop, h]

theorem pollLoop_reach (resp : Nat → Except String String) (n : Nat) :
    ∀ (m a : Nat), a ≤ n → n < a + m →
      (∀ i, a ≤ i → i < n → resp i = .ok "Pending in queue") →
      pollLoop resp m a = pollLoop resp (m - (n - a)) n := by
  intro m
  induction m with
  | zero => intro a h1 h2 _; omega
  | succ m ih =>
    intro a h1 h2 hp
    by_cases ha : a = n
    · subst ha; simp
    · have hpend : resp a = .ok "Pending in queue" := hp a le_rfl (by omega)
      rw [pollLoop_pending_step resp m a hpend]
      have := ih (a + 1) (by omega) (by omega) (fun i hi1 hi2 => hp i (by omega) hi2)
      rw [this]
      congr 1
      omega

theorem pollLoop_all_pending (resp : Nat → Except String String) :
    ∀ (m a : Nat), (∀ i, a ≤ i → i < a + m → resp i = .ok "Pending in queue") →
      pollLoop resp m a = .ok (.Failed ("timed out after " ++ Nat.repr MAX_POLL_ATTEMPTS ++ " attempts")) := by
  intro m
  induction m with
  | zero => intro a _; rfl
  | succ m ih =>
    intro a hp
    rw [pollLoop_pending_step resp m a (hp a le_rfl (by omega))]
    exact ih (a + 1) (fun i h1 h2 => hp i (by omega) (by omega))

theorem pollLoop_terminal (resp : Nat → Except String String) (r a : Nat) (s : String)
    (h : resp a = .ok s) :
    pollLoop resp (r + 1) a =
      (if s = "Pass - Verified" then .ok .Verified
       else if s = "Already Verified" then .ok .AlreadyVerified
       else if s = "Pending in queue" then pollLoop resp r (a + 1)
       else .ok (.Failed s)) := by
  simp [pollLoop, h]

/-- C2: over any sequence of status strings from the explorer status endpoint,
`poll_status` returns `Verified` on the first `"Pass - Verified"`,
`AlreadyVerified` on the first `"Already Verified"`, keeps polling on
`"Pending in queue"`, returns `Failed(<string>)` immediately on any other
string without further polling, and after 20 pending attempts returns
`Failed("timed out after 20 attempts")`; in particular the sequence
pending, pending, pass yields `Verified` after exactly 3 polls. -/
theorem C2_poll_status_state_machine :
    (∀ (resp : Nat → Except String String) (n : Nat),
      1 ≤ n → n ≤ 20 →
      (∀ i, 1 ≤ i → i < n → resp i = .ok "Pending in queue") →
      resp n = .ok "Pass - Verified" →
      poll_status resp = .ok .Verified)
    ∧ (∀ (resp : Nat → Except String String) (n : Nat),
      1 ≤ n → n ≤ 20 →
      (∀ i, 1 ≤ i → i < n → resp i = .ok "Pending in queue") →
      resp n = .ok "Already Verified" →
      poll_status resp = .ok .AlreadyVerified)
    ∧ (∀ (resp : Nat → Except String String) (n : Nat) (s : String),
      1 ≤ n → n ≤ 20 →
      (∀ i, 1 ≤ i → i < n → resp i = .ok "Pending in queue") →
      resp n = .ok s →
      s ≠ "Pass - Verified" → s ≠ "Already Verified" → s ≠ "Pending in queue" →
      poll_status resp = .ok (.Failed s))
    ∧ (∀ (resp : Nat → Except String String),
      (∀ i, 1 ≤ i → i ≤ 20 → resp i = .ok "Pending in queue") →
      poll_status resp = .ok (.Failed "timed out after 20 attempts"))
    ∧ (∀ (resp : Nat → Except String String),
      resp 1 = .ok "Pending in queue" → resp 2 = .ok "Pending in queue" →
      resp 3 = .ok "Pass - Verified" →
      poll_status resp = .ok .Verified)
    ∧ MAX_POLL_ATTEMPTS = 20 ∧ POLL_INTERVAL_SECS = 5 := by
  have reach : ∀ (resp : Nat → Except String String) (n : Nat), 1 ≤ n → n ≤ 20 →
      (∀ i, 1 ≤ i → i < n → resp i = .ok "Pending in queue") →
      ∃ r, 20 - (n - 1) = r + 1 ∧ poll_status resp = pollLoop resp (r + 1) n := by
    intro resp n h1 h2 hp
    refine ⟨20 - (n - 1) - 1, by omega, ?_⟩
    have := pollLoop_reach resp n 20 1 h1 (by omega) hp
    rw [show poll_status resp = pollLoop resp 20 1 from rfl, this]
    congr 1
    omega
  refine ⟨?_, ?_, ?_, ?_, ?_, rfl, rfl⟩
  · intro resp n h1 h2 hp hn
    obtain ⟨r, _, hps⟩ := reach resp n h1 h2 hp
    rw [hps, pollLoop_terminal resp r n _ hn]
    simp
  · intro resp n h1 h2 hp hn
    obtain ⟨r, _, hps⟩ := reach resp n h1 h2 hp
    rw [hps, pollLoop_terminal resp r n _ hn]
    simp
  · intro resp n s h1 h2 hp hn hs1 hs2 hs3
    obtain ⟨r, _, hps⟩ := reach resp n h1 h2 hp
    rw [hps, pollLoop_terminal resp r n s hn]
    simp [hs1, hs2, hs3]
  · intro resp hp
    have := pollLoop_all_pending resp 20 1 (fun i hi1 hi2 => hp i hi1 (by omega))
    rw [show poll_status resp = pollLoop resp 20 1 from rfl, this]
    rfl
  · intro resp hp1 hp2 hp3
    exact (fun hverify => hverify) (by
      have hp : ∀ i, 1 ≤ i → i < 3 → resp i = .ok "Pending in queue" := by
        intro i hi1 hi2
        interval_cases i
        · exact hp1
        · exact hp2
      obtain ⟨r, _, hps⟩ := reach resp 3 (by omega) (by omega) hp
      rw [hps, pollLoop_terminal resp r 3 _ hp3]
      simp)

theorem C2_witness :
    poll_status respSeq3 = .ok .Verified
    ∧ poll_status respAllPending = .ok (.Failed "timed out after 20 attempts")
    ∧ poll_status respOther = .ok (.Failed "Unable to verify")
    ∧ poll_status respAlready = .ok .AlreadyVerified :=
  ⟨C2_poll_status_state_machine.2.2.2.2.1 respSeq3 rfl rfl rfl,
   C2_poll_status_state_machine.2.2.2.1 respAllPending (fun _ _ _ => rfl),
   C2_poll_status_state_machine.2.2.1 respOther 1 "Unable to verify" (by omega) (by omega)
     (fun i h1 h2 => absurd h2 (by omega)) rfl (by decide) (by decide) (by decide),
   C2_poll_status_state_machine.2.1 respAlready 1 (by omega) (by omega)
     (fun i h1 h2 => absurd h2 (by omega)) rfl⟩

theorem submitLoopAux_ok (f : Nat → Except String String) (r a : Nat) (g : String)
    (h : f a = .ok g) : submitLoopAux f (r + 1) a = .inr g := by
  simp [submitLoopAux, h]

theorem submit_loop_three_errors (f : Nat → Except String String) (e1 e2 e3 : String)
    (h1 : f 1 = .error e1) (h2 : f 2 = .error e2) (h3 : f 3 = .error e3) :
    submit_loop f = .inl (.Failed e3) := by
  have s1 : submit_loop f = submitLoopAux f 2 2 := by
    show submitLoopAux f 3 1 = _
    simp [submitLoopAux, h1]
  have s2 : submitLoopAux f 2 2 = submitLoopAux f 1 3 := by
    simp [submitLoopAux, h2]
  have s3 : submitLoopAux f 1 3 = .inl (.Failed e3) := by
    simp [submitLoopAux, h3]
  rw [s1, s2, s3]

theorem submit_loop_second_ok (f : Nat → Except String String) (e1 g)
    (h1 : f 1 = .error e1) (h2 : f 2 = .ok g) : submit_loop f = .inr g := by
  have s1 : submit_loop f = submitLoopAux f 2 2 := by
    show submitLoopAux f 3 1 = _
    simp [submitLoopAux, h1]
  rw [s1]
  exact submitLoopAux_ok f 1 2 g h2

theorem submitLoopAux_congr (f f' : Nat → Except String String) :
    ∀ (r a : Nat), (∀ i, a ≤ i → i < a + r → f i = f' i) →
      submitLoopAux f r a = submitLoopAux f' r a := by
  intro r
  induction r with
  | zero => intro a _; rfl
  | succ r ih =>
    intro a h
    have ha : f a = f' a := h a le_rfl (by omega)
    cases hfa : f' a with
    | ok g => simp [submitLoopAux, ha, hfa]
    | error e =>
      simp only [submitLoopAux, ha, hfa]
      by_cases hr : r = 0
      · simp [hr]
      · simp only [hr, if_false]
        exact ih (a + 1) (fun i h1 h2 => h i (by omega) (by omega))

theorem verify_contract_submit_exhausted (env : VerifyEnv) (k : String)
    (b : String × String) (e1 e2 e3 : String)
    (hk : effective_api_key env.verify.etherscan_api_key = some k)
    (hb : env.buildResult = .ok b)
    (h1 : submit_verification (env.submitResp 1) = .error e1)
    (h2 : submit_verification (env.submitResp 2) = .error e2)
    (h3 : submit_verification (env.submitResp 3) = .error e3) :
    verify_contract env = .ok (.Failed e3) := by
  have hloop := submit_loop_three_errors (fun a => submit_verification (env.submitResp a))
    e1 e2 e3 h1 h2 h3
  simp only [verify_contract, hk, hb, hloop]

/-- C3: verification submission makes at most 3 attempts (`SUBMIT_RETRIES`)
with a 10-second delay constant between attempts; if all attempts fail the
loop yields the value `Failed(<last error message>)` and `verify_contract`
returns it as an `ok` value rather than propagating an error; a success on the
2nd attempt yields the job identifier and the result does not depend on any
later attempt. -/
theorem C3_submission_retry_policy :
    (SUBMIT_RETRIES = 3 ∧ SUBMIT_RETRY_DELAY_SECS = 10)
    ∧ (∀ (f : Nat → Except String String) e1 e2 e3,
        f 1 = .error e1 → f 2 = .error e2 → f 3 = .error e3 →
        submit_loop f = .inl (.Failed e3))
    ∧ (∀ (f : Nat → Except String String) e1 g,
        f 1 = .error e1 → f 2 = .ok g → submit_loop f = .inr g)
    ∧ (∀ (f f' : Nat → Except String String),
        (∀ i, 1 ≤ i → i ≤ 3 → f i = f' i) → submit_loop f = submit_loop f')
    ∧ (∀ (env : VerifyEnv) (k : String) (b : String × String) (e1 e2 e3 : String),
        effective_api_key env.verify.etherscan_api_key = some k →
        env.buildResult = .ok b →
        submit_verification (env.submitResp 1) = .error e1 →
        submit_verification (env.submitResp 2) = .error e2 →
        submit_verification (env.submitResp 3) = .error e3 →
        verify_contract env = .ok (.Failed e3)) := by
  refine ⟨⟨rfl, rfl⟩, submit_loop_three_errors, submit_loop_second_ok, ?_, 
    verify_contract_submit_exhausted⟩
  intro f f' h
  exact submitLoopAux_congr f f' 3 1 (fun i h1 h2 => h i h1 (by omega))

theorem C3_witness :
    submit_loop subAllErr = .inl (.Failed "boom3")
    ∧ submit_loop subSecondOk = .inr "guid-2"
    ∧ verify_contract veSubmitFail =
        .ok (.Failed "failed to send verification request to Etherscan: connection refused") :=
  ⟨C3_submission_retry_policy.2.1 subAllErr "boom1" "boom2" "boom3" rfl rfl rfl,
   C3_submission_retry_policy.2.2.1 subSecondOk "boom1" "guid-2" rfl rfl,
   C3_submission_retry_policy.2.2.2.2 veSubmitFail "KEY" ("{}", "v0.8.28")
     "failed to send verification request to Etherscan: connection refused"
     "failed to send verification request to Etherscan: connection refused"
     "failed to send verification request to Etherscan: connection refused"
     rfl rfl rfl rfl rfl⟩

/-- C10: when `etherscan_api_key` is `Some ""` (and likewise `None`), the key
is treated as absent: `verify_contract` returns `Skipped` regardless of the
build step, submit endpoint and status endpoint, i.e. without reading the
artifact, building the standard JSON input, or issuing any HTTP request. -/
theorem C10_empty_api_key_skips (u : Option String) (b : Except String (String × String))
    (sub : Nat → Except String (String × String)) (p : Nat → Except String String) :
    verify_contract ⟨⟨some "", u⟩, b, sub, p⟩ = .ok .Skipped
    ∧ verify_contract ⟨⟨none, u⟩, b, sub, p⟩ = .ok .Skipped :=
  ⟨rfl, rfl⟩

theorem hexChars_length (bs : List Nat) : (hexChars bs).length = 2 * bs.length := by
  induction bs with
  | nil => rfl
  | cons b bs ih =>
    have hb : (byteHexChars b).length = 2 := rfl
    simp only [hexChars, List.flatMap_cons, List.length_append] at ih ⊢
    rw [hb, ih, List.length_cons]
    omega

theorem keccak256_length (msg : List Nat) : (keccak256 msg).length = 32 := by
  simp [keccak256, laneBytes]

theorem hexDigit_mem (n : Nat) : hexDigit n ∈ hexDigitChars := by
  unfold hexDigit
  split <;> simp [hexDigitChars]

/-- C9: for every fully-qualified name, `library_placeholder` returns a
40-character string of the shape `__$` ++ 34 hex characters ++ `$__`, where
the middle is the hex encoding of the 32-byte keccak256 hash of the name
truncated to 34 hex characters (17 bytes), all characters lowercase hex, and
the function is deterministic. -/
theorem C9_library_placeholder_shape (s : String) :
    library_placeholder s =
      "__$" ++ String.mk ((hexChars (keccak256 (strBytes s))).take 34) ++ "$__"
    ∧ (library_placeholder s).length = 40
    ∧ (keccak256 (strBytes s)).length = 32
    ∧ (∀ c ∈ (hexChars (keccak256 (strBytes s))).take 34, c ∈ hexDigitChars)
    ∧ (∀ t, s = t → library_placeholder s = library_placeholder t) := by
  refine ⟨rfl, ?_, keccak256_length _, ?_, fun t ht => ht ▸ rfl⟩
  · have hlen : ((hexChars (keccak256 (strBytes s))).take 34).length = 34 := by
      rw [List.length_take, hexChars_length, keccak256_length]
      omega
    simp [library_placeholder, String.length_append, String.length, hlen]
  · intro c hc
    have hc' : c ∈ hexChars (keccak256 (strBytes s)) := List.take_subset 34 _ hc
    simp only [hexChars] at hc'
    obtain ⟨b, _, hb⟩ := List.mem_flatMap.mp hc'
    simp only [byteHexChars, List.mem_cons, List.mem_singleton] at hb
    rcases hb with hb | hb | hb
    · exact hb ▸ hexDigit_mem _
    · exact hb ▸ hexDigit_mem _
    · exact absurd hb (List.not_mem_nil c)

theorem C9_witness : library_placeholder "a" = library_placeholder "a" :=
  (C9_library_placeholder_shape "a").2.2.2.2 "a" rfl

theorem lookupField_eq_none (m : List (String × Json)) (k : String)
    (h : k ∉ m.map Prod.fst) : lookupField m k = none := by
  induction m with
  | nil => rfl
  | cons hd tl ih =>
    obtain ⟨k0, v0⟩ := hd
    simp only [List.map_cons, List.mem_cons] at h
    push_neg at h
    simp only [lookupField, if_neg (Ne.symm h.1)]
    exact ih h.2

theorem lookupField_append_ne (m : List (String × Json)) (k k' : String) (v : Json)
    (h : k' ≠ k) : lookupField (m ++ [(k, v)]) k' = lookupField m k' := by
  induction m with
  | nil => simp only [List.nil_append, lookupField, if_neg (Ne.symm h)]
  | cons hd tl ih =>
    obtain ⟨k0, v0⟩ := hd
    simp only [List.cons_append, lookupField]
    by_cases h0 : k0 = k'
    · simp [h0]
    · simp [h0, ih]

theorem lookupField_append_found (m : List (String × Json)) (k : String) (v : Json)
    (h : lookupField m k = none) : lookupField (m ++ [(k, v)]) k = some v := by
  induction m with
  | nil => simp [lookupField]
  | cons hd tl ih =>
    obtain ⟨k0, v0⟩ := hd
    simp only [lookupField] at h
    by_cases h0 : k0 = k
    · simp [h0] at h
    · simp only [List.cons_append, lookupField, if_neg h0]
      exact ih (by simpa [h0] using h)

theorem lookupField_mapInsert_self (m : List (String × Json)) (k : String) (v : Json) :
    lookupField (mapInsert m k v) k = some v := by
  induction m with
  | nil => simp [mapInsert, lookupField]
  | cons hd tl ih =>
    obtain ⟨k0, v0⟩ := hd
    by_cases h0 : k0 = k
    · simp [mapInsert, h0, lookupField]
    · simp [mapInsert, h0, lookupField, ih]

theorem lookupField_mapInsert_other (m : List (String × Json)) (k : String) (v : Json)
    (k' : String) (h : k' ≠ k) :
    lookupField (mapInsert m k v) k' = lookupField m k' := by
  induction m with
  | nil => simp [mapInsert, lookupField, if_neg (Ne.symm h)]
  | cons hd tl ih =>
    obtain ⟨k0, v0⟩ := hd
    by_cases h0 : k0 = k
    · subst h0
      simp [mapInsert, lookupField, if_neg (Ne.symm h)]
    · simp only [mapInsert, if_neg h0, lookupField]
      by_cases h1 : k0 = k'
      · simp [h1]
      · simp [h1, ih]

/-- The settings fold of `build_standard_json_input` never inserts
`compilationTarget`. -/
theorem settings_fold_ct (ms : List (String × Json)) :
    ∀ acc, lookupField
      (ms.foldl (fun acc kv =>
        if kv.fst = "compilationTarget" then acc else mapInsert acc kv.fst kv.snd) acc)
      "compilationTarget" = lookupField acc "compilationTarget" := by
  induction ms with
  | nil => intro acc; rfl
  | cons hd tl ih =>
    intro acc
    obtain ⟨k0, v0⟩ := hd
    simp only [List.foldl_cons]
    by_cases hct : k0 = "compilationTarget"
    · simp only [hct, if_pos, reduceIte]
      exact ih acc
    · simp only [if_neg hct]
      rw [ih (mapInsert acc k0 v0), lookupField_mapInsert_other _ _ _ _ (Ne.symm hct)]

/-- Lookup through the settings-copying fold, for maps with distinct keys. -/
theorem settings_fold_lookup (ms : List (String × Json)) :
    ∀ (acc : List (String × Json)) (k : String),
      (ms.map Prod.fst).Nodup → k ≠ "compilationTarget" →
      lookupField
        (ms.foldl (fun acc kv =>
          if kv.fst = "compilationTarget" then acc else mapInsert acc kv.fst kv.snd) acc) k
      = match lookupField ms k with
        | some v => some v
        | none => lookupField acc k := by
  induction ms with
  | nil => intro acc k _ _; simp [lookupField]
  | cons hd tl ih =>
    intro acc k hnd hk
    obtain ⟨k0, v0⟩ := hd
    have hnd' : (tl.map Prod.fst).Nodup := by
      simp only [List.map_cons, List.nodup_cons] at hnd
      exact hnd.2
    have hk0 : k0 ∉ tl.map Prod.fst := by
      simp only [List.map_cons, List.nodup_cons] at hnd
      exact hnd.1
    simp only [List.foldl_cons]
    by_cases hct : k0 = "compilationTarget"
    · simp only [hct, reduceIte]
      rw [ih acc k hnd' hk]
      have hne : "compilationTarget" ≠ k := fun h => hk h.symm
      simp [lookupField, if_neg hne]
    · simp only [if_neg hct]
      rw [ih (mapInsert acc k0 v0) k hnd' hk]
      by_cases hkk : k0 = k
      · subst hkk
        rw [lookupField_eq_none tl k0 hk0]
        simp [lookupField, lookupField_mapInsert_self]
      · cases hlt : lookupField tl k with
        | some v => simp [lookupField, hkk, hlt]
        | none => simp [lookupField, hkk, hlt, lookupField_mapInsert_other _ _ _ _ (Ne.symm hkk)]

theorem buildSettings_obj_lookup (ms : List (String × Json))
    (hnd : (ms.map Prod.fst).Nodup) :
    lookupField (buildSettings (Json.obj ms)) "compilationTarget" = none
    ∧ (∀ k v, k ≠ "compilationTarget" → lookupField ms k = some v →
        lookupField (buildSettings (Json.obj ms)) k = some v)
    ∧ (lookupField ms "outputSelection" = none →
        lookupField (buildSettings (Json.obj ms)) "outputSelection" = some defaultOutputSelection)
    ∧ (∀ k, k ≠ "outputSelection" → k ≠ "compilationTarget" → lookupField ms k = none →
        lookupField (buildSettings (Json.obj ms)) k = none) := by
  have hbase : settingsBase (Json.obj ms) =
      ms.foldl (fun acc kv =>
        if kv.fst = "compilationTarget" then acc else mapInsert acc kv.fst kv.snd) [] := rfl
  have hb2 : buildSettings (Json.obj ms) =
      entryOrInsert (settingsBase (Json.obj ms)) "outputSelection" defaultOutputSelection := rfl
  refine ⟨?_, ?_, ?_, ?_⟩
  · rw [hb2]
    cases hos : lookupField (settingsBase (Json.obj ms)) "outputSelection" with
    | some v =>
      simp only [entryOrInsert, hos]
      rw [hbase, settings_fold_ct ms []]
      rfl
    | none =>
      simp only [entryOrInsert, hos]
      rw [lookupField_append_ne _ _ _ _ (by decide), hbase, settings_fold_ct ms []]
      rfl
  · intro k v hk hv
    have hsk : lookupField (settingsBase (Json.obj ms)) k = some v := by
      rw [hbase, settings_fold_lookup ms [] k hnd hk, hv]
    rw [hb2]
    by_cases hko : k = "outputSelection"
    · subst hko
      simp only [entryOrInsert, hsk]
    · cases hos : lookupField (settingsBase (Json.obj ms)) "outputSelection" with
      | some w =>
        simp only [entryOrInsert, hos]
        exact hsk
      | none =>
        simp only [entryOrInsert, hos]
        rw [lookupField_append_ne _ _ _ _ hko]
        exact hsk
  · intro hnone
    have hbos : lookupField (settingsBase (Json.obj ms)) "outputSelection" = none := by
      rw [hbase, settings_fold_lookup ms [] "outputSelection" hnd (by decide), hnone]
      rfl
    rw [hb2]
    simp only [entryOrInsert, hbos]
    exact lookupField_append_found _ _ _ hbos
  · intro k hko hkc hnone
    have hbk : lookupField (settingsBase (Json.obj ms)) k = none := by
      rw [hbase, settings_fold_lookup ms [] k hnd hkc, hnone]
      rfl
    rw [hb2]
    cases hos : lookupField (settingsBase (Json.obj ms)) "outputSelection" with
    | some w =>
      simp only [entryOrInsert, hos]
      exact hbk
    | none =>
      simp only [entryOrInsert, hos]
      rw [lookupField_append_ne _ _ _ _ hko]
      exact hbk

theorem build_standard_json_input_obj_metadata (env : BuildEnv)
    (projectDir path ver : String) (ms : List (String × Json))
    (hart : env.fsArtifact path = some (Json.obj [("metadata", Json.obj
      [("compiler", Json.obj [("version", Json.str ver)]),
       ("settings", Json.obj ms), ("sources", Json.obj [])])])) :
    build_standard_json_input env projectDir path =
      .ok (Json.obj [("language", Json.str "Solidity"),
                     ("sources", Json.obj []),
                     ("settings", Json.obj (buildSettings (Json.obj ms)))],
           match ver.data with | 'v' :: _ => ver | _ => "v" ++ ver) := by
  simp only [build_standard_json_input, hart, extract_metadata, Json.get?, lookupField,
    Json.asStr, Json.asObj, readSources, List.map, Option.bind, Option.getD]
  simp [lookupField, Json.asStr, Json.asObj, readSources]

/-- C5 counterexample: an `outputSelection` key already present in the
metadata settings is copied verbatim and kept — `entry(..).or_insert(..)` does
not overwrite it with the forced default, contradicting the claim that
`outputSelection` is force-set regardless of the metadata settings. -/
theorem C5_counterexample :
    lookupField (buildSettings (Json.obj [("outputSelection", Json.str "custom")]))
      "outputSelection" = some (Json.str "custom")
    ∧ Json.str "custom" ≠ defaultOutputSelection := by
  refine ⟨rfl, ?_⟩
  intro h
  simp [defaultOutputSelection] at h

/-- C5 (amended): `build_standard_json_input` copies every compiler-settings
key from the artifact metadata verbatim except `compilationTarget`, which is
omitted; it sets `outputSelection` to the ABI/bytecode default only when the
metadata settings do not already contain an `outputSelection` key (an existing
one is copied verbatim like any other key). -/
theorem C5_settings_copy_policy :
    (∀ (ms : List (String × Json)), (ms.map Prod.fst).Nodup →
      lookupField (buildSettings (Json.obj ms)) "compilationTarget" = none
      ∧ (∀ k v, k ≠ "compilationTarget" → lookupField ms k = some v →
          lookupField (buildSettings (Json.obj ms)) k = some v)
      ∧ (lookupField ms "outputSelection" = none →
          lookupField (buildSettings (Json.obj ms)) "outputSelection"
            = some defaultOutputSelection)
      ∧ (∀ k, k ≠ "outputSelection" → k ≠ "compilationTarget" → lookupField ms k = none →
          lookupField (buildSettings (Json.obj ms)) k = none))
    ∧ (∀ (env : BuildEnv) (projectDir path ver : String) (ms : List (String × Json)),
        env.fsArtifact path = some (Json.obj [("metadata", Json.obj
          [("compiler", Json.obj [("version", Json.str ver)]),
           ("settings", Json.obj ms), ("sources", Json.obj [])])]) →
        build_standard_json_input env projectDir path =
          .ok (Json.obj [("language", Json.str "Solidity"),
                         ("sources", Json.obj []),
                         ("settings", Json.obj (buildSettings (Json.obj ms)))],
               match ver.data with | 'v' :: _ => ver | _ => "v" ++ ver)) :=
  ⟨buildSettings_obj_lookup, build_standard_json_input_obj_metadata⟩

theorem C5_witness :
    lookupField (buildSettings (Json.obj [("optimizer", Json.bool true)]))
      "compilationTarget" = none
    ∧ lookupField (buildSettings (Json.obj [("optimizer", Json.bool true)]))
        "optimizer" = some (Json.bool true)
    ∧ lookupField (buildSettings (Json.obj [("optimizer", Json.bool true)]))
        "outputSelection" = some defaultOutputSelection
    ∧ build_standard_json_input envBuildW "proj" "out/V.sol/V.json" =
        .ok (Json.obj [("language", Json.str "Solidity"),
                       ("sources", Json.obj []),
                       ("settings", Json.obj (buildSettings
                         (Json.obj [("optimizer", Json.bool true)])))],
             "v0.8.28+commit.7893614a") :=
  ⟨((C5_settings_copy_policy.1 [("optimizer", Json.bool true)]) (by decide)).1,
   ((C5_settings_copy_policy.1 [("optimizer", Json.bool true)]) (by decide)).2.1
     "optimizer" (Json.bool true) (by decide) rfl,
   ((C5_settings_copy_policy.1 [("optimizer", Json.bool true)]) (by decide)).2.2.1 rfl,
   C5_settings_copy_policy.2 envBuildW "proj" "out/V.sol/V.json"
     "0.8.28+commit.7893614a" [("optimizer", Json.bool true)] rfl⟩

theorem verify_contract_skip (env : VerifyEnv)
    (hk : effective_api_key env.verify.etherscan_api_key = none) :
    verify_contract env = .ok .Skipped := by
  simp only [verify_contract, hk]

theorem verify_contract_build_error (env : VerifyEnv) (k e : String)
    (hk : effective_api_key env.verify.etherscan_api_key = some k)
    (hb : env.buildResult = .error e) :
    verify_contract env =
      .error ("failed to build standard JSON input for verification: " ++ e) := by
  simp only [verify_contract, hk, hb]

theorem verify_contract_poll_error (env : VerifyEnv) (k : String) (b : String × String)
    (g e : String)
    (hk : effective_api_key env.verify.etherscan_api_key = some k)
    (hb : env.buildResult = .ok b)
    (h1 : submit_verification (env.submitResp 1) = .ok g)
    (hp : env.poll 1 = .error e) :
    verify_contract env = .error e := by
  have hloop : submit_loop (fun a => submit_verification (env.submitResp a)) = .inr g := by
    show submitLoopAux _ 3 1 = _
    simp [submitLoopAux, h1]
  have hpoll : poll_status env.poll = .error e := by
    show pollLoop env.poll (19 + 1) 1 = .error e
    simp [pollLoop, hp]
  simp only [verify_contract, hk, hb, hloop, hpoll]

/-- C6 counterexample: an error while building the standard JSON input makes
`verify_contract` return a hard error (which the callers propagate with `?`),
not a `Failed`/`Skipped` value — contradicting the claim that no
verification-path error ever aborts the run. -/
theorem C6_counterexample :
    verify_contract veBuildErr =
      .error "failed to build standard JSON input for verification: boom" := by
  rfl

/-- C6 (amended): a missing or empty API key degrades to `Skipped` and
exhausted submission retries degrade to a `Failed` value, but an error while
building the standard JSON input, or a transport/parse error while polling the
status endpoint, is returned as a hard error that the publish and
new-compliance-definition workflows propagate with `?`, aborting the run. -/
theorem C6_verification_error_policy :
    (∀ env : VerifyEnv, effective_api_key env.verify.etherscan_api_key = none →
      verify_contract env = .ok .Skipped)
    ∧ (∀ (env : VerifyEnv) (k : String) (b : String × String) (e1 e2 e3 : String),
        effective_api_key env.verify.etherscan_api_key = some k →
        env.buildResult = .ok b →
        submit_verification (env.submitResp 1) = .error e1 →
        submit_verification (env.submitResp 2) = .error e2 →
        submit_verification (env.submitResp 3) = .error e3 →
        verify_contract env = .ok (.Failed e3))
    ∧ (∀ (env : VerifyEnv) (k e : String),
        effective_api_key env.verify.etherscan_api_key = some k →
        env.buildResult = .error e →
        verify_contract env =
          .error ("failed to build standard JSON input for verification: " ++ e))
    ∧ (∀ (env : VerifyEnv) (k : String) (b : String × String) (g e : String),
        effective_api_key env.verify.etherscan_api_key = some k →
        env.buildResult = .ok b →
        submit_verification (env.submitResp 1) = .ok g →
        env.poll 1 = .error e →
        verify_contract env = .error e) :=
  ⟨verify_contract_skip, verify_contract_submit_exhausted,
   verify_contract_build_error, verify_contract_poll_error⟩

theorem C6_witness :
    verify_contract ⟨⟨none, none⟩, .error "x", fun _ => .ok ("1", "g"), fun _ => .ok "s"⟩
        = .ok .Skipped
    ∧ verify_contract veSubmitFail =
        .ok (.Failed "failed to send verification request to Etherscan: connection refused")
    ∧ verify_contract vePollErr = .error "poll transport down" :=
  ⟨C6_verification_error_policy.1 _ rfl,
   C6_verification_error_policy.2.1 veSubmitFail "KEY" ("{}", "v0.8.28")
     "failed to send verification request to Etherscan: connection refused"
     "failed to send verification request to Etherscan: connection refused"
     "failed to send verification request to Etherscan: connection refused"
     rfl rfl rfl rfl rfl,
   C6_verification_error_policy.2.2.2 vePollErr "KEY" ("{}", "v0.8.28") "guid1"
     "poll transport down" rfl rfl rfl rfl⟩

theorem sendDeploy_not_ok (env : Env) (code : List Nat) (st : ChainState)
    (h : respHasAddr (env.deployTx st.count) = false) :
    ∀ out st', sendDeploy env code st ≠ (.ok out, st') := by
  intro out st' hc
  unfold sendDeploy at hc
  cases hr : env.deployTx st.count with
  | sendErr e => rw [hr] at hc; simp at hc
  | receiptErr e => rw [hr] at hc; simp at hc
  | receipt txh oaddr =>
    cases oaddr with
    | none => rw [hr] at hc; simp at hc
    | some addr => rw [hr] at h; simp [respHasAddr] at h

theorem finishDeploy_not_ok (env : Env) (path bc : String) (args : Option (List Nat))
    (st : ChainState) (h : respHasAddr (env.deployTx st.count) = false) :
    ∀ out st', finishDeploy env path bc args st ≠ (.ok out, st') := by
  intro out st' hc
  unfold finishDeploy at hc
  cases hd : hexDecode (strip0x bc) with
  | none => rw [hd] at hc; simp at hc
  | some code => rw [hd] at hc; exact sendDeploy_not_ok env _ st h out st' hc

theorem sendDeploy_ok_shape (env : Env) (code : List Nat) (st : ChainState)
    (out : DeployOutput) (st' : ChainState)
    (h : sendDeploy env code st = (.ok out, st')) :
    env.deployTx st.count = .receipt out.transaction_hash (some out.deployed_to) := by
  unfold sendDeploy at h
  cases hr : env.deployTx st.count with
  | sendErr e => rw [hr] at h; simp at h
  | receiptErr e => rw [hr] at h; simp at h
  | receipt txh oaddr =>
    cases oaddr with
    | none => rw [hr] at h; simp at h
    | some addr =>
      rw [hr] at h
      simp only [Prod.mk.injEq, Except.ok.injEq] at h
      rw [← h.1]

theorem finishDeploy_ok_shape (env : Env) (path bc : String) (args : Option (List Nat))
    (st : ChainState) (out : DeployOutput) (st' : ChainState)
    (h : finishDeploy env path bc args st = (.ok out, st')) :
    env.deployTx st.count = .receipt out.transaction_hash (some out.deployed_to) := by
  unfold finishDeploy at h
  cases hd : hexDecode (strip0x bc) with
  | none => rw [hd] at h; simp at h
  | some code =>
    rw [hd] at h
    exact sendDeploy_ok_shape env _ st out st' h

/-- C7: if no chain receipt ever carries a contract address,
`deploy_from_artifact` never returns a `DeployOutput`; and whenever it does
return one, some receipt carried exactly that output's transaction hash and
deployed address — both fields come from one confirming receipt, never
partially populated. -/
theorem C7_receipt_address_required :
    (∀ (env : Env) (fuel : Nat) (path : String) (args : Option (List Nat))
        (st : ChainState),
      (∀ k, respHasAddr (env.deployTx k) = false) →
      ∀ out st', deploy_from_artifact env fuel path args st ≠ (.ok out, st'))
    ∧ (∀ (env : Env) (fuel : Nat) (path : String) (args : Option (List Nat))
        (st : ChainState) (out : DeployOutput) (st' : ChainState),
      deploy_from_artifact env fuel path args st = (.ok out, st') →
      ∃ k, env.deployTx k = .receipt out.transaction_hash (some out.deployed_to)) := by
  constructor
  · intro env fuel path args st hresp out st' hc
    cases fuel with
    | zero => simp [deploy_from_artifact] at hc
    | succ n =>
      simp only [deploy_from_artifact] at hc
      cases hfs : env.fs path with
      | none => simp only [hfs] at hc; simp at hc
      | some artifact =>
        simp only [hfs] at hc
        cases hbc : ((artifact.get? "bytecode").bind (fun b => b.get? "object")).bind Json.asStr with
        | none => simp only [hbc] at hc; simp at hc
        | some bc0 =>
          simp only [hbc] at hc
          cases hls : linkStage (fun p stx => deploy_from_artifact env n p none stx)
              path artifact bc0 st with
          | mk r st1 =>
            simp only [hls] at hc
            cases r with
            | error e => simp at hc
            | ok bc1 => exact finishDeploy_not_ok env path bc1 args st1 (hresp st1.count) out st' hc
  · intro env fuel path args st out st' hc
    cases fuel with
    | zero => simp [deploy_from_artifact] at hc
    | succ n =>
      simp only [deploy_from_artifact] at hc
      cases hfs : env.fs path with
      | none => simp only [hfs] at hc; simp at hc
      | some artifact =>
        simp only [hfs] at hc
        cases hbc : ((artifact.get? "bytecode").bind (fun b => b.get? "object")).bind Json.asStr with
        | none => simp only [hbc] at hc; simp at hc
        | some bc0 =>
          simp only [hbc] at hc
          cases hls : linkStage (fun p stx => deploy_from_artifact env n p none stx)
              path artifact bc0 st with
          | mk r st1 =>
            simp only [hls] at hc
            cases r with
            | error e => simp at hc
            | ok bc1 => exact ⟨st1.count, finishDeploy_ok_shape env path bc1 args st1 out st' hc⟩

theorem C7_witness :
    (∀ out st', deploy_from_artifact envNoAddr 1 "a.json" none ⟨0, []⟩ ≠ (.ok out, st'))
    ∧ (∃ k, envOneShot.deployTx k =
        .receipt (DeployOutput.transaction_hash ⟨addrA, "0xhash"⟩)
          (some (DeployOutput.deployed_to ⟨addrA, "0xhash"⟩))) :=
  ⟨C7_receipt_address_required.1 envNoAddr 1 "a.json" none ⟨0, []⟩ (fun _ => rfl),
   C7_receipt_address_required.2 envOneShot 1 "out/Main.sol/Main.json" none ⟨0, []⟩
     ⟨addrA, "0xhash"⟩ ⟨1, [[0x60, 0x02]]⟩ rfl⟩

theorem deploy_missing_not_ok (env : Env) (p : String) (h : env.fs p = none) :
    ∀ (fuel : Nat) (st : ChainState),
      exceptIsOk (deploy_from_artifact env fuel p none st).1 = false := by
  intro fuel st
  cases fuel with
  | zero => rfl
  | succ n =>
    simp only [deploy_from_artifact, h]
    rfl

theorem linkOne_bad_not_ok
    (deployLib : String → ChainState → Except String DeployOutput × ChainState)
    (dir solFile badLib : String)
    (hbad : ∀ stx, exceptIsOk (deployLib (libArtifactPath dir solFile badLib) stx).1 = false) :
    ∀ (libs : List String) (bc : String) (st : ChainState), badLib ∈ libs →
      exceptIsOk (linkOne deployLib dir solFile libs bc st).1 = false := by
  intro libs
  induction libs with
  | nil => intro bc st h; exact absurd h (List.not_mem_nil _)
  | cons l rest ih =>
    intro bc st hmem
    cases hd : deployLib (libArtifactPath dir solFile l) st with
    | mk r st' =>
      cases r with
      | error e =>
        simp only [linkOne, hd]
        rfl
      | ok out =>
        simp only [linkOne, hd]
        rcases List.mem_cons.mp hmem with he | ht
        · subst he
          have hb := hbad st
          rw [hd] at hb
          simp [exceptIsOk] at hb
        · exact ih _ _ ht

theorem linkLibs_bad_not_ok
    (deployLib : String → ChainState → Except String DeployOutput × ChainState)
    (dir solFile : String) (libsJson : Json) (libs : List (String × Json))
    (badLib : String) (v : Json)
    (hbad : ∀ stx, exceptIsOk (deployLib (libArtifactPath dir solFile badLib) stx).1 = false)
    (hobj : libsJson.asObj = some libs)
    (hmem : (badLib, v) ∈ libs) :
    ∀ (entries : List (String × Json)) (bc : String) (st : ChainState),
      (solFile, libsJson) ∈ entries →
      exceptIsOk (linkLibs deployLib dir entries bc st).1 = false := by
  intro entries
  induction entries with
  | nil => intro bc st h; exact absurd h (List.not_mem_nil _)
  | cons hd rest ih =>
    intro bc st hment
    obtain ⟨sf0, lj0⟩ := hd
    rcases List.mem_cons.mp hment with he | ht
    · rw [Prod.ext_iff] at he
      obtain ⟨h1, h2⟩ := he
      simp only at h1 h2
      subst h1
      subst h2
      simp only [linkLibs, hobj]
      cases hlo : linkOne deployLib dir solFile (libs.map Prod.fst) bc st with
      | mk r st' =>
        cases r with
        | error e =>
          simp only [hlo]
          rfl
        | ok bc' =>
          have hno := linkOne_bad_not_ok deployLib dir solFile badLib hbad
            (libs.map Prod.fst) bc st (List.mem_map_of_mem Prod.fst hmem)
          rw [hlo] at hno
          simp [exceptIsOk] at hno
    · simp only [linkLibs]
      cases hlo0 : lj0.asObj with
      | none =>
        simp only [hlo0]
        exact ih bc st ht
      | some libs0 =>
        simp only [hlo0]
        cases hl1 : linkOne deployLib dir sf0 (libs0.map Prod.fst) bc st with
        | mk r st' =>
          cases r with
          | error e =>
            simp only [hl1]
            rfl
          | ok bc' =>
            simp only [hl1]
            exact ih bc' st' ht

/-- C8: a library listed in `linkReferences` whose artifact file is absent at
`<outputDir>/<fileName(sourceFile)>/<libraryName>.json` makes linking fail —
the whole deployment can never return `ok` (the library is not silently
skipped), and when that library is first in the reference list the result is
exactly the hard read error for the missing artifact path, with no
transaction sent. -/
theorem C8_missing_library_artifact_error :
    (∀ (env : Env) (fuel : Nat) (path : String) (args : Option (List Nat))
        (st : ChainState) (artifact : Json) (entries : List (String × Json))
        (solFile : String) (libsJson : Json) (libs : List (String × Json))
        (libName : String) (v : Json) (dir : String),
      env.fs path = some artifact →
      (artifact.get? "bytecode").bind (fun b => b.get? "linkReferences")
        = some (Json.obj entries) →
      (solFile, libsJson) ∈ entries →
      libsJson.asObj = some libs →
      (libName, v) ∈ libs →
      (parentPath path).bind parentPath = some dir →
      env.fs (libArtifactPath dir solFile libName) = none →
      exceptIsOk (deploy_from_artifact env fuel path args st).1 = false)
    ∧ (∀ (env : Env) (fuel : Nat) (path : String) (args : Option (List Nat))
        (st : ChainState) (artifact : Json) (bc0 : String)
        (solFile libName : String) (v : Json) (moreLibs moreEntries : List (String × Json))
        (dir : String),
      env.fs path = some artifact →
      ((artifact.get? "bytecode").bind (fun b => b.get? "object")).bind Json.asStr
        = some bc0 →
      (artifact.get? "bytecode").bind (fun b => b.get? "linkReferences")
        = some (Json.obj ((solFile, Json.obj ((libName, v) :: moreLibs)) :: moreEntries)) →
      (parentPath path).bind parentPath = some dir →
      env.fs (libArtifactPath dir solFile libName) = none →
      deploy_from_artifact env (fuel + 2) path args st =
        (.error ("failed to read artifact: " ++ libArtifactPath dir solFile libName), st)) := by
  constructor
  · intro env fuel path args st artifact entries solFile libsJson libs libName v dir
      hart hlr hment hobj hmem hdir hmiss
    cases fuel with
    | zero => rfl
    | succ n =>
      simp only [deploy_from_artifact, hart]
      cases hbc : ((artifact.get? "bytecode").bind (fun b => b.get? "object")).bind Json.asStr with
      | none =>
        simp only [hbc]
        rfl
      | some bc0 =>
        simp only [hbc, linkStage, hlr, Json.asObj, hdir]
        have hres := linkLibs_bad_not_ok (fun p stx => deploy_from_artifact env n p none stx)
          dir solFile libsJson libs libName v
          (fun stx => deploy_missing_not_ok env _ hmiss n stx) hobj hmem entries bc0 st hment
        cases hll : linkLibs (fun p stx => deploy_from_artifact env n p none stx)
            dir entries bc0 st with
        | mk r st1 =>
          rw [hll] at hres
          cases r with
          | error e =>
            simp only [hll]
            rfl
          | ok bc1 => simp [exceptIsOk] at hres
  · intro env fuel path args st artifact bc0 solFile libName v moreLibs moreEntries dir
      hart hbc hlr hdir hmiss
    simp only [deploy_from_artifact, hart, hbc, linkStage, hlr, Json.asObj, hdir,
      linkLibs, List.map, linkOne, hmiss]

theorem C8_witness :
    exceptIsOk (deploy_from_artifact envMissingLib 5 "out/Main.sol/Main.json" none ⟨0, []⟩).1
        = false
    ∧ deploy_from_artifact envMissingLib 2 "out/Main.sol/Main.json" none ⟨0, []⟩ =
        (.error "failed to read artifact: out/Lib.sol/MathLib.json", ⟨0, []⟩) := by
  constructor
  · exact C8_missing_library_artifact_error.1 envMissingLib 5 "out/Main.sol/Main.json" none
      ⟨0, []⟩ artMainLinked [("src/Lib.sol", Json.obj [("MathLib", Json.arr [])])]
      "src/Lib.sol" (Json.obj [("MathLib", Json.arr [])]) [("MathLib", Json.arr [])]
      "MathLib" (Json.arr []) "out" rfl rfl (by simp) rfl (by simp) rfl rfl
  · have := C8_missing_library_artifact_error.2 envMissingLib 0 "out/Main.sol/Main.json" none
      ⟨0, []⟩ artMainLinked "0x6002" "src/Lib.sol" "MathLib" (Json.arr []) [] []
      "out" rfl rfl rfl rfl rfl
    exact this

/-- One unfolding of `deploy_from_artifact` for an artifact with a single
library reference: the library deploys first (recursively), then its
placeholder is substituted before the main deployment proceeds. -/
theorem deploy_succ_single_lib (env : Env) (fuel : Nat)
    (path dir solFile libName bc0 : String) (v : Json) (artifact : Json)
    (args : Option (List Nat)) (st : ChainState)
    (hart : env.fs path = some artifact)
    (hbc : ((artifact.get? "bytecode").bind (fun b => b.get? "object")).bind Json.asStr
      = some bc0)
    (hlr : (artifact.get? "bytecode").bind (fun b => b.get? "linkReferences")
      = some (Json.obj [(solFile, Json.obj [(libName, v)])]))
    (hdir : (parentPath path).bind parentPath = some dir) :
    deploy_from_artifact env (fuel + 1) path args st =
      match deploy_from_artifact env fuel (libArtifactPath dir solFile libName) none st with
      | (.error e, st1) => (.error e, st1)
      | (.ok out, st1) =>
          finishDeploy env path
            (replaceAll bc0 (library_placeholder (solFile ++ ":" ++ libName))
              (hexEncodeStr out.deployed_to)) args st1 := by
  simp only [deploy_from_artifact, hart, hbc, linkStage, hlr, Json.asObj, hdir,
    linkLibs, List.map, linkOne]
  cases hres : deploy_from_artifact env fuel (libArtifactPath dir solFile libName) none st with
  | mk r st1 =>
    cases r with
    | error e => rfl
    | ok out => rfl

/-- One unfolding of `deploy_from_artifact` for an artifact without link
references: no recursive deployment happens. -/
theorem deploy_succ_no_lib (env : Env) (fuel : Nat) (path bc0 : String)
    (artifact : Json) (args : Option (List Nat)) (st : ChainState)
    (hart : env.fs path = some artifact)
    (hbc : ((artifact.get? "bytecode").bind (fun b => b.get? "object")).bind Json.asStr
      = some bc0)
    (hlr : (artifact.get? "bytecode").bind (fun b => b.get? "linkReferences") = none) :
    deploy_from_artifact env (fuel + 1) path args st = finishDeploy env path bc0 args st := by
  simp only [deploy_from_artifact, hart, hbc, linkStage, hlr]

/-- C4 (code behaviour at the failing input): on a cyclic library graph —
an artifact whose `linkReferences` entry resolves back to its own path —
`deploy_from_artifact` recurses without bound: for every fuel value the
embedding exhausts its fuel and no cycle error is ever produced, so the Rust
code (which has no in-progress tracking) loops indefinitely instead of
failing fast as the claim requires. -/
theorem C4_cyclic_library_graph_diverges :
    ∀ (fuel : Nat) (st : ChainState),
      deploy_from_artifact envCyc fuel "out/A.sol/A.json" none st =
        (.error "recursion fuel exhausted", st) := by
  intro fuel
  induction fuel with
  | zero => intro st; rfl
  | succ n ih =>
    intro st
    rw [deploy_succ_single_lib envCyc n "out/A.sol/A.json" "out" "src/A.sol" "A" "0x00"
      (Json.arr []) artCyc none st rfl rfl rfl rfl]
    rw [show libArtifactPath "out" "src/A.sol" "A" = "out/A.sol/A.json" from rfl]
    rw [ih st]

/-- C1: for a library entry `(sourceFile, libraryName)` in the artifact's
`bytecode.linkReferences`, `deploy_from_artifact` reads the library artifact
at `<outputDir>/<fileName(sourceFile)>/<libraryName>.json` where `outputDir`
is the parent-of-parent of the originating artifact's path; after the library
deploys, every occurrence of the placeholder computed from
`"<sourceFile>:<libraryName>"` in the pending bytecode string is replaced by
the deployed address's lowercase hex encoding without a `0x` mark, and the
resulting bytecode is decoded and deployed as the main contract. -/
theorem C1_library_lookup_and_link (env : Env) (fuel : Nat)
    (path dir solFile libName : String) (v : Json)
    (bc bcLib : String) (libCode mainCode : List Nat)
    (txh1 txh2 : String) (addrL addrM : List Nat) (st : ChainState)
    (hart : env.fs path = some (Json.obj [("bytecode", Json.obj
      [("object", Json.str bc),
       ("linkReferences", Json.obj [(solFile, Json.obj [(libName, v)])])])]))
    (hdir : (parentPath path).bind parentPath = some dir)
    (hlib : env.fs (libArtifactPath dir solFile libName)
      = some (Json.obj [("bytecode", Json.obj [("object", Json.str bcLib)])]))
    (hlibdec : hexDecode (strip0x bcLib) = some libCode)
    (htx1 : env.deployTx st.count = .receipt txh1 (some addrL))
    (hmaindec : hexDecode (strip0x (replaceAll bc
        (library_placeholder (solFile ++ ":" ++ libName)) (hexEncodeStr addrL)))
      = some mainCode)
    (htx2 : env.deployTx (st.count + 1) = .receipt txh2 (some addrM)) :
    deploy_from_artifact env (fuel + 2) path none st =
      (.ok ⟨addrM, txh2⟩, ⟨st.count + 2, st.sent ++ [libCode, mainCode]⟩) := by
  rw [deploy_succ_single_lib env (fuel + 1) path dir solFile libName bc v _ none st
    hart rfl rfl hdir]
  rw [deploy_succ_no_lib env fuel (libArtifactPath dir solFile libName) bcLib _ none st
    hlib rfl rfl]
  simp only [finishDeploy, hlibdec, sendDeploy, htx1, Option.getD, List.append_nil,
    hmaindec, htx2, List.append_assoc]
  simp

set_option maxRecDepth 1000000 in
theorem C1_witness :
    deploy_from_artifact envLink 2 "out/Main.sol/Main.json" none ⟨0, []⟩ =
      (.ok ⟨addrB, "0xh2"⟩, ⟨2, [[0x60, 0x01], [0x60, 0x02]]⟩) :=
  C1_library_lookup_and_link envLink 0 "out/Main.sol/Main.json" "out" "src/Lib.sol"
    "MathLib" (Json.arr []) "0x6002" "0x6001" [0x60, 0x01] [0x60, 0x02] "0xh1" "0xh2"
    addrA addrB ⟨0, []⟩ rfl rfl rfl rfl rfl (by rfl) rfl
